import Mathlib

/-
Verification of the fetch/persist/merge workflow of update_data.py.

The script downloads satellite data for a fixed table of categories from an
upstream catalog service, writes each category to data/<category>.json, then
fetches the ISS record (CATNR=25544) and merges it into data/active.json.

Shallow embedding conventions:
  * A satellite record is opaque except for its NORAD_CAT_ID field, the only
    field the program inspects (through sat.get, which yields None when the
    field is absent); the rest of the JSON object is an opaque payload tag.
  * A stored file holds either the JSON dump of a record array (which
    json.load parses back to the same array) or some other document, on which
    json.load either fails or yields a value that makes the merge loop raise;
    both are caught by the surrounding try/except before any write happens.
  * The upstream service during one cycle is a fixed map from requests to
    parsed responses; a request that fails (transport error or non-success
    HTTP status, both ending in the except branch) is modelled as none.
-/

set_option maxRecDepth 8000

/-- A satellite record as returned by the upstream service: the numeric
NORAD_CAT_ID field when present, plus the rest of the JSON object, opaque. -/
structure SatRecord where
  norad : Option Int
  payload : String
deriving DecidableEq

/-- Number of records of a dataset whose NORAD_CAT_ID field equals 25544,
the comparison the merge scan performs through sat.get. -/
def countISS : List SatRecord → Nat
  | [] => 0
  | s :: rest => (if s.norad = some 25544 then 1 else 0) + countISS rest

/-- Content of a stored data file: the dump of a record array, or any other
document (unparseable, or parsed to something that derails the merge loop). -/
inductive JsonDoc where
  | arr : List SatRecord → JsonDoc
  | bad : String → JsonDoc
deriving DecidableEq

/-- json.load on a stored document: succeeds exactly on stored record arrays
(json.dump output always round-trips). -/
def parseDoc : JsonDoc → Option (List SatRecord)
  | JsonDoc.arr l => some l
  | JsonDoc.bad _ => none

/-- The data directory: category name mapped to the content of
data/<name>.json, or none when the file does not exist. -/
abbrev FS := String → Option JsonDoc

/-- Overwrite one file of the data directory. -/
def FS.write (fs : FS) (name : String) (d : JsonDoc) : FS :=
  fun n => if n = name then some d else fs n

/-- The CATEGORIES dict (lines 8-17): logical name paired with its upstream
group identifier, in insertion order; every name maps to itself. -/
def CATEGORIES : List (String × String) :=
  [("active", "active"), ("stations", "stations"), ("weather", "weather"),
   ("noaa", "noaa"), ("goes", "goes"), ("resource", "resource"),
   ("amateur", "amateur"), ("starlink", "starlink")]

/-- The category names, in the fixed iteration order of the dict. -/
def catNames : List String :=
  CATEGORIES.map Prod.fst

/-- Fixed upstream behavior during a run: the parsed JSON array answered to
each category GROUP query (none when the request fails) and to the
CATNR=25544 ISS query. -/
structure Upstream where
  categoryResp : String → Option (List SatRecord)
  issResp : Option (List SatRecord)

/-- fetch_category_data (lines 19-33): GET with the GROUP id of the category;
in CATEGORIES every name is its own group id, so the request is keyed by the
category name. Returns none on a transport error or error status. -/
def fetch_category_data (env : Upstream) (category : String) : Option (List SatRecord) :=
  env.categoryResp category

/-- fetch_iss_data (lines 35-44): GET with CATNR=25544; none on failure. -/
def fetch_iss_data (env : Upstream) : Option (List SatRecord) :=
  env.issResp

/-- save_data_to_file (lines 46-62): returns without touching the file when
data is None, otherwise overwrites the category file with the dumped array. -/
def save_data_to_file (category : String) (data : Option (List SatRecord)) (fs : FS) : FS :=
  match data with
  | none => fs
  | some d => FS.write fs category (JsonDoc.arr d)

/-- The for/else scan of update_all_data (lines 85-90), with r standing for
iss_data[0]: replace the first record whose NORAD_CAT_ID equals 25544 and
stop, or append r when the whole scan finds none. -/
def merge_iss (r : SatRecord) : List SatRecord → List SatRecord
  | [] => [r]
  | s :: rest =>
    if s.norad = some 25544 then r :: rest else s :: merge_iss r rest

/-- The ISS part of update_all_data (lines 73-97). The guard if iss_data is
false both for None and for an empty array; the merge runs only when
data/active.json exists, and a read/parse failure inside the try block is
caught before the write, leaving every file as it was. -/
def iss_merge_step (env : Upstream) (fs : FS) : FS :=
  match fetch_iss_data env with
  | none => fs
  | some [] => fs
  | some (r :: _) =>
    match fs "active" with
    | none => fs
    | some doc =>
      match parseDoc doc with
      | none => fs
      | some active_data =>
        FS.write fs "active" (JsonDoc.arr (merge_iss r active_data))

/-- One iteration of the category loop of update_all_data (lines 66-71):
fetch the category, then save; the trace component records that a fetch was
attempted for the category. -/
def cat_step (env : Upstream) (acc : FS × List String) (c : String × String) : FS × List String :=
  (save_data_to_file c.1 (fetch_category_data env c.1) acc.1, acc.2 ++ [c.1])

/-- The category loop of update_all_data (lines 66-71): for each category of
the dict in order, fetch then save, with the trace of attempted fetches. -/
def run_categories (env : Upstream) (fs : FS) : FS × List String :=
  CATEGORIES.foldl (cat_step env) (fs, [])

/-- update_all_data (lines 64-97): the category loop, then the ISS merge. -/
def update_all_data (env : Upstream) (fs : FS) : FS :=
  iss_merge_step env (run_categories env fs).1

/-- Value of the freshly stored file given the response for it: a failed
fetch keeps the old content, a successful one stores the dumped payload. -/
def stored (resp : Option (List SatRecord)) (old : Option JsonDoc) : Option JsonDoc :=
  match resp with
  | none => old
  | some d => some (JsonDoc.arr d)

/-- Value of the active file after the ISS merge step, as a function of its
value before. -/
def merge_active_val (env : Upstream) (od : Option JsonDoc) : Option JsonDoc :=
  match fetch_iss_data env with
  | none => od
  | some [] => od
  | some (r :: _) =>
    match od with
    | none => none
    | some doc =>
      match parseDoc doc with
      | none => some doc
      | some active_data => some (JsonDoc.arr (merge_iss r active_data))

/- Concrete inputs used to instantiate the theorems below. -/

/-- A freshly fetched ISS record, carrying catalog number 25544. -/
def issNew : SatRecord := ⟨some 25544, "iss-new"⟩

/-- A stale record carrying catalog number 25544. -/
def dupA : SatRecord := ⟨some 25544, "dup-a"⟩

/-- A second stale record carrying catalog number 25544. -/
def dupB : SatRecord := ⟨some 25544, "dup-b"⟩

/-- A record for some other satellite. -/
def plainSat : SatRecord := ⟨some 7, "plain"⟩

/-- A record whose JSON object has no NORAD_CAT_ID field at all. -/
def noIdSat : SatRecord := ⟨none, "anon"⟩

/-- An empty data directory. -/
def fsEmpty : FS := fun _ => none

/-- A data directory holding only an empty active.json array. -/
def fsActive0 : FS := fun n => if n = "active" then some (JsonDoc.arr []) else none

/-- A data directory whose active.json does not parse as a record array. -/
def fsBad : FS := fun n => if n = "active" then some (JsonDoc.bad "oops") else none

/-- Upstream answering a duplicated-ISS active catalog and a fresh ISS. -/
def envDup : Upstream := ⟨fun _ => some [dupA, dupB], some [issNew]⟩

/-- Upstream failing every category query, ISS query answered by a record
without a NORAD_CAT_ID field. -/
def envIdem : Upstream := ⟨fun _ => none, some [noIdSat]⟩

/-- Upstream where every request fails, the ISS one included. -/
def envNoIss : Upstream := ⟨fun _ => none, none⟩

/-- Upstream failing every category query; the ISS query answers an empty
JSON array. -/
def envEmptyIss : Upstream := ⟨fun _ => none, some []⟩

/-- Upstream failing every category query; the ISS query succeeds. -/
def envW3 : Upstream := ⟨fun _ => none, some [issNew]⟩

/-- Upstream answering a one-record catalog to every category query and a
fresh ISS record to the ISS query. -/
def envW1 : Upstream := ⟨fun _ => some [plainSat], some [issNew]⟩

/-- Upstream answering an empty catalog to every category query and a fresh
ISS record to the ISS query. -/
def envW6 : Upstream := ⟨fun _ => some [], some [issNew]⟩

/-- Upstream answering a two-record catalog to every category query; the ISS
query fails. -/
def envW7 : Upstream := ⟨fun _ => some [plainSat, noIdSat], none⟩

/-- A data directory whose active.json holds one non-ISS record. -/
def fsW3 : FS := fun n => if n = "active" then some (JsonDoc.arr [plainSat]) else none

theorem merge_iss_nil (r : SatRecord) : merge_iss r [] = [r] := rfl

theorem merge_iss_cons_pos (r s : SatRecord) (rest : List SatRecord)
    (h : s.norad = some 25544) : merge_iss r (s :: rest) = r :: rest := by
  simp [merge_iss, h]

theorem merge_iss_cons_neg (r s : SatRecord) (rest : List SatRecord)
    (h : ¬ s.norad = some 25544) : merge_iss r (s :: rest) = s :: merge_iss r rest := by
  simp [merge_iss, h]

theorem merge_iss_no_match (r : SatRecord) (l : List SatRecord)
    (h : ∀ s ∈ l, ¬ s.norad = some 25544) : merge_iss r l = l ++ [r] := by
  induction l with
  | nil => rfl
  | cons s rest ih =>
    rw [merge_iss_cons_neg r s rest (h s (List.mem_cons_self s rest))]
    rw [ih (fun t ht => h t (List.mem_cons_of_mem s ht))]
    simp

theorem save_at_other (cat : String) (data : Option (List SatRecord)) (fs : FS)
    (n : String) (h : ¬ n = cat) : save_data_to_file cat data fs n = fs n := by
  cases data with
  | none => rfl
  | some d => simp [save_data_to_file, FS.write, h]

theorem save_at_same (cat : String) (d : List SatRecord) (fs : FS) :
    save_data_to_file cat (some d) fs cat = some (JsonDoc.arr d) := by
  simp [save_data_to_file, FS.write]

theorem foldl_cat_trace (env : Upstream) (l : List (String × String)) (fs : FS)
    (t : List String) :
    (l.foldl (cat_step env) (fs, t)).2 = t ++ l.map Prod.fst := by
  induction l generalizing fs t with
  | nil => simp
  | cons c rest ih =>
    rw [List.foldl_cons, List.map_cons]
    rw [show cat_step env (fs, t) c =
        (save_data_to_file c.1 (fetch_category_data env c.1) fs, t ++ [c.1]) from rfl]
    rw [ih]
    simp

theorem foldl_cat_at (env : Upstream) (l : List (String × String)) (fs : FS)
    (t : List String) (n : String) :
    (l.foldl (cat_step env) (fs, t)).1 n =
      if n ∈ l.map Prod.fst then stored (env.categoryResp n) (fs n) else fs n := by
  induction l generalizing fs t with
  | nil => simp
  | cons c rest ih =>
    rw [List.foldl_cons]
    rw [show cat_step env (fs, t) c =
        (save_data_to_file c.1 (fetch_category_data env c.1) fs, t ++ [c.1]) from rfl]
    rw [ih]
    have hsave : save_data_to_file c.1 (fetch_category_data env c.1) fs n =
        if n = c.1 then stored (env.categoryResp n) (fs n) else fs n := by
      by_cases hcn : n = c.1
      · rw [if_pos hcn, hcn,
            show fetch_category_data env c.1 = env.categoryResp c.1 from rfl]
        cases hr : env.categoryResp c.1 with
        | none => rfl
        | some d => exact save_at_same c.1 d fs
      · rw [if_neg hcn]
        exact save_at_other c.1 _ fs n hcn
    rw [hsave]
    by_cases hmem : n ∈ rest.map Prod.fst
    · rw [if_pos hmem, if_pos (show n ∈ (c :: rest).map Prod.fst by simp [hmem])]
      cases hr : env.categoryResp n with
      | some d => rfl
      | none => simp [stored]
    · rw [if_neg hmem]
      by_cases hcn : n = c.1
      · rw [if_pos hcn, if_pos (show n ∈ (c :: rest).map Prod.fst by simp [hcn])]
      · rw [if_neg hcn,
            if_neg (show ¬ n ∈ (c :: rest).map Prod.fst by simp [hcn, hmem])]

theorem run_categories_trace (env : Upstream) (fs : FS) :
    (run_categories env fs).2 = catNames := by
  rw [run_categories, catNames, foldl_cat_trace]
  rfl

theorem run_categories_at (env : Upstream) (fs : FS) (n : String) :
    (run_categories env fs).1 n =
      if n ∈ catNames then stored (env.categoryResp n) (fs n) else fs n := by
  rw [run_categories, catNames]
  exact foldl_cat_at env CATEGORIES fs [] n

theorem active_mem_catNames : "active" ∈ catNames := by
  simp [catNames, CATEGORIES]

theorem iss_merge_at_other (env : Upstream) (fs : FS) (n : String)
    (hn : ¬ n = "active") : iss_merge_step env fs n = fs n := by
  cases hi : fetch_iss_data env with
  | none => simp [iss_merge_step, hi]
  | some iss =>
    cases iss with
    | nil => simp [iss_merge_step, hi]
    | cons r tl =>
      cases hfa : fs "active" with
      | none => simp [iss_merge_step, hi, hfa]
      | some doc =>
        cases hp : parseDoc doc with
        | none => simp [iss_merge_step, hi, hfa, hp]
        | some active_data => simp [iss_merge_step, hi, hfa, hp, FS.write, hn]

theorem iss_merge_at_active (env : Upstream) (fs : FS) :
    iss_merge_step env fs "active" = merge_active_val env (fs "active") := by
  cases hi : fetch_iss_data env with
  | none => simp [iss_merge_step, merge_active_val, hi]
  | some iss =>
    cases iss with
    | nil => simp [iss_merge_step, merge_active_val, hi]
    | cons r tl =>
      cases hfa : fs "active" with
      | none => simp [iss_merge_step, merge_active_val, hi, hfa]
      | some doc =>
        cases hp : parseDoc doc with
        | none => simp [iss_merge_step, merge_active_val, hi, hfa, hp]
        | some active_data =>
          simp [iss_merge_step, merge_active_val, hi, hfa, hp, FS.write]

theorem merge_iss_idem (r : SatRecord) (hr : r.norad = some 25544)
    (l : List SatRecord) : merge_iss r (merge_iss r l) = merge_iss r l := by
  induction l with
  | nil => rw [merge_iss_nil, merge_iss_cons_pos r r [] hr]
  | cons s rest ih =>
    by_cases hs : s.norad = some 25544
    · rw [merge_iss_cons_pos r s rest hs, merge_iss_cons_pos r r rest hr]
    · rw [merge_iss_cons_neg r s rest hs, merge_iss_cons_neg r s _ hs, ih]

theorem merge_val_idem (env : Upstream) (v : Option JsonDoc)
    (h : ∀ r tl, env.issResp = some (r :: tl) → r.norad = some 25544) :
    merge_active_val env (merge_active_val env v) = merge_active_val env v := by
  cases hi : fetch_iss_data env with
  | none => simp [merge_active_val, hi]
  | some iss =>
    cases iss with
    | nil => simp [merge_active_val, hi]
    | cons r tl =>
      have hr : r.norad = some 25544 := h r tl hi
      cases v with
      | none => simp [merge_active_val, hi]
      | some doc =>
        cases doc with
        | bad b => simp [merge_active_val, hi, parseDoc]
        | arr l => simp [merge_active_val, hi, parseDoc, merge_iss_idem r hr l]

theorem countISS_zero (l : List SatRecord) (h : countISS l = 0) :
    ∀ s ∈ l, ¬ s.norad = some 25544 := by
  induction l with
  | nil => intro s hs; simp at hs
  | cons x rest ih =>
    by_cases hx : x.norad = some 25544
    · exfalso
      simp [countISS, hx] at h
    · intro s hs
      rcases List.mem_cons.mp hs with h1 | h2
      · rw [h1]; exact hx
      · have hr : countISS rest = 0 := by simpa [countISS, hx] using h
        exact ih hr s h2

theorem countISS_merge_le (r : SatRecord) (l : List SatRecord)
    (h : countISS l ≤ 1) : countISS (merge_iss r l) ≤ 1 := by
  induction l with
  | nil =>
    rw [merge_iss_nil]
    by_cases hr : r.norad = some 25544 <;> simp [countISS, hr]
  | cons s rest ih =>
    by_cases hs : s.norad = some 25544
    · have h0 : countISS rest = 0 := by
        simp [countISS, hs] at h
        omega
      rw [merge_iss_cons_pos r s rest hs]
      by_cases hr : r.norad = some 25544 <;> simp [countISS, hr, h0]
    · have h1 : countISS rest ≤ 1 := by simpa [countISS, hs] using h
      rw [merge_iss_cons_neg r s rest hs]
      simp [countISS, hs]
      exact ih h1

theorem merge_unique (r : SatRecord) (l : List SatRecord)
    (h : countISS l ≤ 1) :
    ∀ s ∈ merge_iss r l, s.norad = some 25544 → s = r := by
  induction l with
  | nil =>
    intro s hs _
    rw [merge_iss_nil] at hs
    simpa using hs
  | cons x rest ih =>
    by_cases hx : x.norad = some 25544
    · have h0 : countISS rest = 0 := by
        simp [countISS, hx] at h
        omega
      rw [merge_iss_cons_pos r x rest hx]
      intro s hs hsn
      rcases List.mem_cons.mp hs with h1 | h2
      · exact h1
      · exact absurd hsn (countISS_zero rest h0 s h2)
    · have h1 : countISS rest ≤ 1 := by simpa [countISS, hx] using h
      rw [merge_iss_cons_neg r x rest hx]
      intro s hs hsn
      rcases List.mem_cons.mp hs with hx1 | h2
      · exact absurd (hx1 ▸ hsn) hx
      · exact ih h1 s h2 hsn

/-- C1, as stated, is false: when the active dataset at merge time holds two
records with NORAD_CAT_ID 25544 (the merge scan replaces only the first and
stops), the active dataset after the full cycle still holds two such records.
Here every category fetch returns the duplicated catalog and the ISS fetch a
fresh record. -/
theorem C1_counterexample :
    ¬ (∀ (env : Upstream) (fs : FS) (r : SatRecord) (tl L2 : List SatRecord),
        env.issResp = some (r :: tl) →
        ¬ (run_categories env fs).1 "active" = none →
        update_all_data env fs "active" = some (JsonDoc.arr L2) →
        countISS L2 ≤ 1 ∧ ∀ s ∈ L2, s.norad = some 25544 → s = r) := by
  intro hclaim
  have h2 := hclaim envDup fsEmpty issNew [] [issNew, dupB] rfl (by decide) (by decide)
  exact absurd h2.1 (by decide)

/-- C1 amended: provided the active dataset on disk before the merge step
contains at most one record with NORAD_CAT_ID 25544, after the full cycle the
active dataset contains at most one such record, and any such record equals
the most recently fetched ISS record (the first record of the ISS payload). -/
theorem C1_amended (env : Upstream) (fs : FS) (L : List SatRecord)
    (r : SatRecord) (tl : List SatRecord)
    (hL : (run_categories env fs).1 "active" = some (JsonDoc.arr L))
    (hcount : countISS L ≤ 1)
    (hiss : env.issResp = some (r :: tl)) :
    update_all_data env fs "active" = some (JsonDoc.arr (merge_iss r L)) ∧
      countISS (merge_iss r L) ≤ 1 ∧
      ∀ s ∈ merge_iss r L, s.norad = some 25544 → s = r := by
  refine ⟨?_, countISS_merge_le r L hcount, merge_unique r L hcount⟩
  rw [update_all_data, iss_merge_at_active, hL]
  simp [merge_active_val, fetch_iss_data, hiss, parseDoc]

/-- C1 witness: a concrete full cycle in which the fetched active catalog
holds one non-ISS record, instantiating the amended claim. -/
theorem C1_witness :
    update_all_data envW1 fsEmpty "active" =
      some (JsonDoc.arr (merge_iss issNew [plainSat])) :=
  (C1_amended envW1 fsEmpty [plainSat] issNew [] (by decide) (by decide) rfl).1

/-- C2, as stated, is false: it quantifies over any position i holding a
record with NORAD_CAT_ID 25544, but when two such records exist the merge
replaces only the earliest one, so for the later position the merged dataset
does not carry the fetched ISS record there. -/
theorem C2_counterexample :
    ¬ (∀ (l : List SatRecord) (i : Nat) (s r : SatRecord),
        l.get? i = some s → s.norad = some 25544 →
        ((merge_iss r l).get? i = some r ∧
          ∀ j, ¬ j = i → (merge_iss r l).get? j = l.get? j)) := by
  intro hclaim
  have h2 := hclaim [dupA, dupB] 1 dupB issNew (by decide) (by decide)
  exact absurd h2.1 (by decide)

/-- C2 amended: if position i holds the EARLIEST record of the active dataset
with NORAD_CAT_ID 25544 (no record before it matches), the merge replaces
the record at position i with the first fetched ISS record and leaves the
record at every other position unchanged. -/
theorem C2_amended (l : List SatRecord) (i : Nat) (s r : SatRecord)
    (hget : l.get? i = some s) (hs : s.norad = some 25544)
    (hfirst : ∀ t ∈ l.take i, ¬ t.norad = some 25544) :
    (merge_iss r l).get? i = some r ∧
      ∀ j, ¬ j = i → (merge_iss r l).get? j = l.get? j := by
  induction l generalizing i with
  | nil => simp at hget
  | cons x rest ih =>
    cases i with
    | zero =>
      have hxs : x = s := by simpa using hget
      have hx : x.norad = some 25544 := by rw [hxs]; exact hs
      rw [merge_iss_cons_pos r x rest hx]
      constructor
      · rfl
      · intro j hj
        cases j with
        | zero => exact absurd rfl hj
        | succ m => simp
    | succ k =>
      have hx : ¬ x.norad = some 25544 := by
        apply hfirst x
        rw [List.take_succ_cons]
        exact List.mem_cons_self x (rest.take k)
      rw [merge_iss_cons_neg r x rest hx]
      have hget2 : rest.get? k = some s := by simpa using hget
      have hfirst2 : ∀ t ∈ rest.take k, ¬ t.norad = some 25544 := by
        intro t ht
        apply hfirst t
        rw [List.take_succ_cons]
        exact List.mem_cons_of_mem x ht
      obtain ⟨h1, h2⟩ := ih k hget2 hfirst2
      constructor
      · simpa using h1
      · intro j hj
        cases j with
        | zero => rfl
        | succ m =>
          have hm : ¬ m = k := fun hmk => hj (by rw [hmk])
          rw [List.get?_cons_succ, List.get?_cons_succ]
          exact h2 m hm

/-- C2 witness: in a dataset whose only matching record sits at position 1,
the merged dataset carries the fetched ISS record at position 1. -/
theorem C2_witness :
    (merge_iss issNew [plainSat, dupA, noIdSat]).get? 1 = some issNew :=
  (C2_amended [plainSat, dupA, noIdSat] 1 dupA issNew (by decide) (by decide)
    (by decide)).1

/-- C3: when no record of the active dataset has NORAD_CAT_ID 25544, the
for/else scan falls through to its else branch and the merge writes the
original dataset with the first fetched ISS record appended as last element,
all prior records and their order preserved. -/
theorem C3_ok (env : Upstream) (fs : FS) (active_data : List SatRecord)
    (r : SatRecord) (tl : List SatRecord)
    (hiss : env.issResp = some (r :: tl))
    (hfile : fs "active" = some (JsonDoc.arr active_data))
    (hno : ∀ s ∈ active_data, ¬ s.norad = some 25544) :
    iss_merge_step env fs "active" = some (JsonDoc.arr (active_data ++ [r])) := by
  rw [iss_merge_at_active, hfile]
  simp [merge_active_val, fetch_iss_data, hiss, parseDoc,
    merge_iss_no_match r active_data hno]

/-- C3 witness: merging into an active dataset holding one non-matching
record appends the fetched ISS record. -/
theorem C3_witness :
    iss_merge_step envW3 fsW3 "active" = some (JsonDoc.arr ([plainSat] ++ [issNew])) :=
  C3_ok envW3 fsW3 [plainSat] issNew [] rfl (by decide) (by decide)

/-- C4: when data/active.json does not exist, the merge step leaves the data
directory exactly as it was; it is a total no-op, so no write happens and no
error escapes. -/
theorem C4_ok (env : Upstream) (fs : FS) (h : fs "active" = none) :
    iss_merge_step env fs = fs := by
  cases hi : fetch_iss_data env with
  | none => simp [iss_merge_step, hi]
  | some iss =>
    cases iss with
    | nil => simp [iss_merge_step, hi]
    | cons r tl => simp [iss_merge_step, hi, h]

/-- C4 witness: the merge step on an empty data directory, with a successful
ISS fetch, changes nothing. -/
theorem C4_witness : iss_merge_step envW3 fsEmpty = fsEmpty :=
  C4_ok envW3 fsEmpty rfl

/-- C5: when the fetch for a category fails, the category loop leaves that
category's file untouched, and the loop still attempts every category of the
fixed table in order, so one failure never prevents processing the others. -/
theorem C5_ok (env : Upstream) (fs : FS) (c : String)
    (hc : env.categoryResp c = none) :
    (run_categories env fs).1 c = fs c ∧ (run_categories env fs).2 = catNames := by
  constructor
  · rw [run_categories_at]
    by_cases hmem : c ∈ catNames
    · rw [if_pos hmem, hc]
      rfl
    · rw [if_neg hmem]
  · exact run_categories_trace env fs

/-- C5 witness: with every request failing, the stations file is untouched
and all eight categories were still attempted in order. -/
theorem C5_witness :
    (run_categories envNoIss fsActive0).1 "stations" = fsActive0 "stations" ∧
      (run_categories envNoIss fsActive0).2 = catNames :=
  C5_ok envNoIss fsActive0 "stations" rfl

/-- C6, as stated, is false: with identical upstream behavior in both cycles
(active fetch failing, ISS fetch returning one record without a NORAD_CAT_ID
field), the second cycle appends a second copy of the ISS record to the
already-merged active file, so the stored files differ after the two runs. -/
theorem C6_counterexample :
    ¬ update_all_data envIdem (update_all_data envIdem fsActive0) "active" =
        update_all_data envIdem fsActive0 "active" := by
  decide

/-- C6 amended: two consecutive cycles under identical upstream responses
leave identical stored files, provided that whenever the ISS fetch yields a
non-empty dataset, its first record carries NORAD_CAT_ID 25544 or the active
category fetch succeeded; the counterexample shows the claim fails without
this proviso. -/
theorem C6_amended (env : Upstream) (fs : FS)
    (h : (∀ r tl, env.issResp = some (r :: tl) → r.norad = some 25544) ∨
         ¬ env.categoryResp "active" = none) :
    update_all_data env (update_all_data env fs) = update_all_data env fs := by
  funext n
  by_cases hn : n = "active"
  · subst hn
    simp only [update_all_data]
    rw [iss_merge_at_active, iss_merge_at_active, run_categories_at,
        run_categories_at, if_pos active_mem_catNames, if_pos active_mem_catNames]
    cases hresp : env.categoryResp "active" with
    | some d => simp [stored]
    | none =>
      simp only [stored]
      rw [iss_merge_at_active, run_categories_at, if_pos active_mem_catNames, hresp]
      simp only [stored]
      apply merge_val_idem
      rcases h with h1 | h2
      · exact h1
      · exact absurd hresp h2
  · simp only [update_all_data]
    rw [iss_merge_at_other env _ n hn, iss_merge_at_other env _ n hn,
        run_categories_at, run_categories_at]
    by_cases hmem : n ∈ catNames
    · rw [if_pos hmem, if_pos hmem]
      cases hresp : env.categoryResp n with
      | some d => simp [stored]
      | none =>
        simp only [stored]
        rw [iss_merge_at_other env _ n hn, run_categories_at, if_pos hmem, hresp]
        rfl
    · rw [if_neg hmem, if_neg hmem]
      rw [iss_merge_at_other env _ n hn, run_categories_at, if_neg hmem]

/-- C6 witness: with every category fetch succeeding (empty catalogs) and a
proper ISS record, two consecutive cycles give the same data directory. -/
theorem C6_witness :
    update_all_data envW6 (update_all_data envW6 fsEmpty) =
      update_all_data envW6 fsEmpty :=
  C6_amended envW6 fsEmpty (Or.inr (by decide))

/-- C7: for every category of the fixed table, a successful fetch followed by
persist stores exactly the dumped fetched payload in that category's file,
whatever the file held before (json.dump is deterministic, so equal stored
documents are textually equal). -/
theorem C7_ok (env : Upstream) (fs : FS) (c : String) (d : List SatRecord)
    (hc : c ∈ catNames) (hd : env.categoryResp c = some d) :
    (run_categories env fs).1 c = some (JsonDoc.arr d) := by
  rw [run_categories_at, if_pos hc, hd]
  rfl

/-- C7 witness: a successful weather fetch ends up stored verbatim. -/
theorem C7_witness :
    (run_categories envW7 fsEmpty).1 "weather" =
      some (JsonDoc.arr [plainSat, noIdSat]) :=
  C7_ok envW7 fsEmpty "weather" [plainSat, noIdSat] (by decide) rfl

/-- C8: when the ISS fetch returns an empty array, the falsy guard on
iss_data skips the merge entirely: nothing is written and no error escapes
(the merge step is the identity on the data directory). -/
theorem C8_ok (env : Upstream) (fs : FS) (h : env.issResp = some []) :
    iss_merge_step env fs = fs := by
  simp [iss_merge_step, fetch_iss_data, h]

/-- C8 witness: an empty ISS payload leaves a directory with an active file
untouched. -/
theorem C8_witness : iss_merge_step envEmptyIss fsActive0 = fsActive0 :=
  C8_ok envEmptyIss fsActive0 rfl

/-- C9: when the ISS fetch fails, the merge step is skipped entirely and the
whole data directory, the active file included, is left unchanged by the
remainder of the cycle. -/
theorem C9_ok (env : Upstream) (fs : FS) (h : env.issResp = none) :
    iss_merge_step env fs = fs := by
  simp [iss_merge_step, fetch_iss_data, h]

/-- C9 witness: a failed ISS fetch leaves a directory with an active file
untouched. -/
theorem C9_witness : iss_merge_step envNoIss fsActive0 = fsActive0 :=
  C9_ok envNoIss fsActive0 rfl

/-- C10: when reading or parsing the active file fails during the merge step
(the stored document is not a record array), the exception is caught before
the write, so the merge leaves the whole data directory as it was. -/
theorem C10_ok (env : Upstream) (fs : FS) (b : String)
    (h : fs "active" = some (JsonDoc.bad b)) :
    iss_merge_step env fs = fs := by
  cases hi : fetch_iss_data env with
  | none => simp [iss_merge_step, hi]
  | some iss =>
    cases iss with
    | nil => simp [iss_merge_step, hi]
    | cons r tl => simp [iss_merge_step, hi, h, parseDoc]

/-- C10 witness: a malformed active file survives the merge step unchanged
even though the ISS fetch succeeded. -/
theorem C10_witness : iss_merge_step envW3 fsBad = fsBad :=
  C10_ok envW3 fsBad "oops" (by decide)
